import Mathlib

/-
  Shallow embedding of the identity-and-access core of the
  fl-auth-service-lambda repository: role/capability derivation
  (src/utils/roles.ts), password login (src/routes/login.ts),
  JWT signing and verification (src/utils/auth.ts), the
  account-recovery (forgot-password) route and its rate limiter
  (src/routes/forgotPassword.ts, src/utils/security.ts), the
  password-setup and password-reset completion flows
  (src/routes/setupPassword.ts, src/handlers/forgotPassword.ts),
  token refresh (src/routes/refreshToken.ts) and account deletion
  (src/routes/resetPassword.ts, deleteAccount).
-/

namespace FLAuth

/-! ## Role derivation (src/utils/roles.ts) -/

/-- Boolean relationship flags, from the RoleFlags interface in roles.ts. -/
structure RoleFlags where
  leadsBacenta : Bool
  leadsCampus : Bool
  leadsCouncil : Bool
  leadsStream : Bool
  leadsGovernorship : Bool
  leadsOversight : Bool
  leadsDenomination : Bool
  isAdminForStream : Bool
  isAdminForCampus : Bool
  isAdminForCouncil : Bool
  isAdminForGovernorship : Bool
  isAdminForOversight : Bool
  isAdminForDenomination : Bool
  isArrivalsAdminForStream : Bool
  isArrivalsAdminForCampus : Bool
  isArrivalsAdminForCouncil : Bool
  isArrivalsAdminForGovernorship : Bool
  isArrivalsCounterForStream : Bool
  isArrivalsPayerCouncil : Bool
  isTellerForStream : Bool
  isSheepSeekerForStream : Bool
  deriving DecidableEq

/-- The list of role name pushes in deriveRolesFromFlags, in source order:
each true flag appends its fixed role string. -/
def rolesList (flags : RoleFlags) : List String :=
  (if flags.leadsBacenta then ["leaderBacenta"] else []) ++
  (if flags.leadsCampus then ["leaderCampus"] else []) ++
  (if flags.leadsCouncil then ["leaderCouncil"] else []) ++
  (if flags.leadsStream then ["leaderStream"] else []) ++
  (if flags.leadsGovernorship then ["leaderGovernorship"] else []) ++
  (if flags.leadsOversight then ["leaderOversight"] else []) ++
  (if flags.leadsDenomination then ["leaderDenomination"] else []) ++
  (if flags.isAdminForStream then ["adminStream"] else []) ++
  (if flags.isAdminForCampus then ["adminCampus"] else []) ++
  (if flags.isAdminForCouncil then ["adminCouncil"] else []) ++
  (if flags.isAdminForGovernorship then ["adminGovernorship"] else []) ++
  (if flags.isAdminForOversight then ["adminOversight"] else []) ++
  (if flags.isAdminForDenomination then ["adminDenomination"] else []) ++
  (if flags.isArrivalsAdminForStream then ["arrivalsAdminStream"] else []) ++
  (if flags.isArrivalsAdminForCampus then ["arrivalsAdminCampus"] else []) ++
  (if flags.isArrivalsAdminForCouncil then ["arrivalsAdminCouncil"] else []) ++
  (if flags.isArrivalsAdminForGovernorship then ["arrivalsAdminGovernorship"] else []) ++
  (if flags.isArrivalsCounterForStream then ["arrivalsCounterStream"] else []) ++
  (if flags.isArrivalsPayerCouncil then ["tellerCouncil"] else []) ++
  (if flags.isTellerForStream then ["tellerStream"] else []) ++
  (if flags.isSheepSeekerForStream then ["sheepSeekerStream"] else [])

/-- First-occurrence deduplication, the semantics of the JavaScript
spread of a Set built from a list. -/
def jsSetDedupAux : List String → List String → List String
  | [], _ => []
  | a :: t, seen =>
    if a ∈ seen then jsSetDedupAux t seen else a :: jsSetDedupAux t (a :: seen)

def jsSetDedup (l : List String) : List String := jsSetDedupAux l []

/-- deriveRolesFromFlags from roles.ts: conditional pushes followed by
the Set-based deduplication. -/
def deriveRolesFromFlags (flags : RoleFlags) : List String :=
  jsSetDedup (rolesList flags)

/-- The closed whitelist of the 21 role names the source can ever push. -/
def KNOWN_ROLES : List String :=
  ["leaderBacenta", "leaderCampus", "leaderCouncil", "leaderStream",
   "leaderGovernorship", "leaderOversight", "leaderDenomination",
   "adminStream", "adminCampus", "adminCouncil", "adminGovernorship",
   "adminOversight", "adminDenomination",
   "arrivalsAdminStream", "arrivalsAdminCampus", "arrivalsAdminCouncil",
   "arrivalsAdminGovernorship",
   "arrivalsCounterStream", "tellerCouncil", "tellerStream",
   "sheepSeekerStream"]

/-- Declarative flag-to-role table, spec side: each flag paired with the
fixed name it contributes. -/
def ROLE_TABLE (flags : RoleFlags) : List (Bool × String) :=
  [(flags.leadsBacenta, "leaderBacenta"),
   (flags.leadsCampus, "leaderCampus"),
   (flags.leadsCouncil, "leaderCouncil"),
   (flags.leadsStream, "leaderStream"),
   (flags.leadsGovernorship, "leaderGovernorship"),
   (flags.leadsOversight, "leaderOversight"),
   (flags.leadsDenomination, "leaderDenomination"),
   (flags.isAdminForStream, "adminStream"),
   (flags.isAdminForCampus, "adminCampus"),
   (flags.isAdminForCouncil, "adminCouncil"),
   (flags.isAdminForGovernorship, "adminGovernorship"),
   (flags.isAdminForOversight, "adminOversight"),
   (flags.isAdminForDenomination, "adminDenomination"),
   (flags.isArrivalsAdminForStream, "arrivalsAdminStream"),
   (flags.isArrivalsAdminForCampus, "arrivalsAdminCampus"),
   (flags.isArrivalsAdminForCouncil, "arrivalsAdminCouncil"),
   (flags.isArrivalsAdminForGovernorship, "arrivalsAdminGovernorship"),
   (flags.isArrivalsCounterForStream, "arrivalsCounterStream"),
   (flags.isArrivalsPayerCouncil, "tellerCouncil"),
   (flags.isTellerForStream, "tellerStream"),
   (flags.isSheepSeekerForStream, "sheepSeekerStream")]

/-- Spec-side capability derivation: filter the declarative table by the
true flags and project the names (for refinement comparison with the
source's deriveRolesFromFlags). -/
def deriveCapabilitiesSpec (flags : RoleFlags) : List String :=
  ((ROLE_TABLE flags).filter (fun p => p.1)).map (fun p => p.2)

theorem table_step (b : Bool) (n : String) (t : List (Bool × String)) :
    (((b, n) :: t).filter (fun p => p.1)).map (fun p => p.2)
      = (if b then [n] else []) ++ ((t.filter (fun p => p.1)).map (fun p => p.2)) := by
  cases b <;> simp [List.filter_cons]

theorem rolesList_eq_spec (flags : RoleFlags) :
    rolesList flags = deriveCapabilitiesSpec flags := by
  simp [deriveCapabilitiesSpec, ROLE_TABLE, table_step, rolesList]

theorem KNOWN_ROLES_nodup : KNOWN_ROLES.Nodup := by decide

theorem spec_sublist_known (flags : RoleFlags) :
    List.Sublist (deriveCapabilitiesSpec flags) KNOWN_ROLES := by
  have h1 : List.Sublist ((ROLE_TABLE flags).filter (fun p => p.1)) (ROLE_TABLE flags) :=
    List.filter_sublist _
  have h2 := h1.map (fun p => p.2)
  have h3 : (ROLE_TABLE flags).map (fun p => p.2) = KNOWN_ROLES := rfl
  rw [deriveCapabilitiesSpec, ← h3]
  exact h2

theorem rolesList_nodup (flags : RoleFlags) : (rolesList flags).Nodup := by
  rw [rolesList_eq_spec]
  exact (spec_sublist_known flags).nodup KNOWN_ROLES_nodup

theorem jsSetDedupAux_eq_of_nodup (l : List String) :
    ∀ seen, l.Nodup → (∀ x ∈ l, x ∉ seen) → jsSetDedupAux l seen = l := by
  induction l with
  | nil => intro seen _ _; rfl
  | cons a t ih =>
    intro seen hnd hs
    have ha : a ∉ seen := hs a (List.mem_cons_self a t)
    rw [List.nodup_cons] at hnd
    unfold jsSetDedupAux
    rw [if_neg ha]
    congr 1
    refine ih (a :: seen) hnd.2 (fun x hx => ?_)
    rw [List.mem_cons]
    push_neg
    refine ⟨fun heq => hnd.1 (heq ▸ hx), hs x (List.mem_cons_of_mem a hx)⟩

theorem jsSetDedup_eq_of_nodup (l : List String) (h : l.Nodup) :
    jsSetDedup l = l :=
  jsSetDedupAux_eq_of_nodup l [] h (fun _ _ hmem => by cases hmem)

theorem deriveRolesFromFlags_eq_spec (flags : RoleFlags) :
    deriveRolesFromFlags flags = deriveCapabilitiesSpec flags := by
  rw [deriveRolesFromFlags, jsSetDedup_eq_of_nodup _ (rolesList_nodup flags),
    rolesList_eq_spec]

/-- C9: deriveRolesFromFlags is a total pure function that coincides with
the declarative table-driven derivation (each true flag contributes
exactly its one fixed name, so the output depends only on which flags are
true and is stable under re-evaluation), its output has no duplicates,
and every output element belongs to the closed whitelist KNOWN_ROLES. -/
theorem C9_deriveRoles_pure_nodup_whitelisted (flags : RoleFlags) :
    deriveRolesFromFlags flags = deriveCapabilitiesSpec flags ∧
    (deriveRolesFromFlags flags).Nodup ∧
    (∀ r ∈ deriveRolesFromFlags flags, r ∈ KNOWN_ROLES) := by
  have he := deriveRolesFromFlags_eq_spec flags
  refine ⟨he, ?_, ?_⟩
  · rw [he]
    exact (spec_sublist_known flags).nodup KNOWN_ROLES_nodup
  · intro r hr
    rw [he] at hr
    exact (spec_sublist_known flags).subset hr

/-! ## Token service (src/utils/auth.ts, jsonwebtoken) -/

/-- Claims a signed payload can carry across the issuance sites of this
repository. Absent JSON keys are modelled as none. -/
structure JWTPayload where
  sub : Option String
  userId : Option String
  email : Option String
  firstName : Option String
  lastName : Option String
  action : Option String
  roles : Option (List String)
  deriving DecidableEq

/-- A token is either structurally malformed or a signed envelope over a
payload with issued-at and expiry timestamps (seconds) and a signature
value. -/
inductive JwtToken where
  | malformed (raw : String)
  | signed (payload : JWTPayload) (iat expAt : Nat) (sig : Nat)
  deriving DecidableEq

/-- The HMAC of the crypto library, kept abstract: any function of the
secret and the signed data. -/
abbrev SigOf := String → JWTPayload → Nat → Nat → Nat

/-- signJWT: jwt.sign(payload, secret, expiresIn), with expiresIn in
seconds; sets iat to now and exp to now + ttl. -/
def signJWT (sigOf : SigOf) (secret : String) (payload : JWTPayload)
    (now ttlSeconds : Nat) : JwtToken :=
  .signed payload now (now + ttlSeconds) (sigOf secret payload now (now + ttlSeconds))

/-- signRefreshToken: jwt.sign(payload, secret, expiresIn 7d). -/
def signRefreshToken (sigOf : SigOf) (secret : String) (payload : JWTPayload)
    (now : Nat) : JwtToken :=
  signJWT sigOf secret payload now 604800

/-- verifyJWT: jwt.verify inside a try/catch whose catch rethrows the
single uniform Error message for every failure cause (malformed
structure, signature mismatch, expiry: clock at or past exp). -/
def verifyJWT (sigOf : SigOf) (secret : String) (now : Nat) :
    JwtToken → Except String JWTPayload
  | .malformed _ => .error "Invalid or expired token"
  | .signed p iat expAt sig =>
    if sig = sigOf secret p iat expAt then
      if expAt ≤ now then .error "Invalid or expired token" else .ok p
    else .error "Invalid or expired token"

/-- Payload of a signed token, none for a malformed one. -/
def JwtToken.claims : JwtToken → Option JWTPayload
  | .malformed _ => none
  | .signed p _ _ _ => some p

/-- C7: token verification is uniform: every outcome is either decoded
claims or the one error value; a forged signature, a malformed
token, and an expired token all fail with that same error; in particular
a 30-minute access token verified 31 minutes after issuance fails with
the same message, not a distinct expired kind. -/
theorem C7_verify_uniform_error (sigOf : SigOf) (secret : String) (now T : Nat)
    (p : JWTPayload) (iat expAt sig : Nat) (raw : String)
    (hforged : sig ≠ sigOf secret p iat expAt) :
    (∀ tok : JwtToken, (∃ q, verifyJWT sigOf secret now tok = .ok q) ∨
      verifyJWT sigOf secret now tok = .error "Invalid or expired token") ∧
    verifyJWT sigOf secret now (.malformed raw) = .error "Invalid or expired token" ∧
    verifyJWT sigOf secret now (.signed p iat expAt sig)
      = .error "Invalid or expired token" ∧
    verifyJWT sigOf secret (T + 1860) (signJWT sigOf secret p T 1800)
      = .error "Invalid or expired token" := by
  refine ⟨fun tok => ?_, rfl, ?_, ?_⟩
  · cases tok with
    | malformed r => exact Or.inr rfl
    | signed q i e s =>
      by_cases hs : s = sigOf secret q i e
      · by_cases he : e ≤ now
        · exact Or.inr (by simp [verifyJWT, hs, he])
        · exact Or.inl ⟨q, by simp [verifyJWT, hs, he]⟩
      · exact Or.inr (by simp [verifyJWT, hs])
  · simp [verifyJWT, hforged]
  · simp [verifyJWT, signJWT]

/-- Witness for C7 at a concrete secret, payload and clock. -/
theorem C7_verify_uniform_error_witness :
    verifyJWT (fun s _ i e => s.length + i + e) "sec" 1000
        (.signed ⟨none, some "u1", some "a@x.com", none, none, none, none⟩ 0 86400 5)
      = .error "Invalid or expired token" := by
  have h := C7_verify_uniform_error (fun s _ i e => s.length + i + e) "sec" 1000 0
    ⟨none, some "u1", some "a@x.com", none, none, none, none⟩ 0 86400 5 "x"
    (by decide)
  exact h.2.2.1

/-! ## Login (src/routes/login.ts) -/

/-- Identity record as projected by the login query. The password
property being absent (null or undefined) is modelled as none. -/
structure Member where
  id : String
  firstName : String
  lastName : String
  email : String
  password : Option String
  deriving DecidableEq

/-- Extra data attached to the credential-unset ApiError. -/
structure ErrorData where
  requiresPasswordSetup : Bool
  deriving DecidableEq

def INVALID_CREDENTIALS_MSG : String := "Invalid email or password"

def PASSWORD_NOT_SET_MSG : String :=
  "Password not set. Please use \x27Forgot Password\x27 to set up your password."

/-- Outcome of the login route: an ApiError (status code, message,
optional extra data) or the 200 response with both tokens. -/
inductive LoginResponse where
  | apiError (statusCode : Nat) (message : String) (data : Option ErrorData)
  | ok (accessToken refreshToken : JwtToken)
      (userId email firstName lastName : String) (roles : List String)
  deriving DecidableEq

/-- The login route, parameterised over the credential store lookup (the
cypher query returning the member and its flags), the bcrypt comparison,
and the signing environment. -/
def login (findByEmail : String → Option (Member × RoleFlags))
    (comparePassword : String → String → Bool)
    (sigOf : SigOf) (secret : String) (now : Nat)
    (email password : String) : LoginResponse :=
  match findByEmail email with
  | none => .apiError 401 INVALID_CREDENTIALS_MSG none
  | some (m, flags) =>
    match m.password with
    | none => .apiError 401 PASSWORD_NOT_SET_MSG (some ⟨true⟩)
    | some stored =>
      if comparePassword password stored then
        let roles := deriveRolesFromFlags flags
        .ok (signJWT sigOf secret
              ⟨none, some m.id, some m.email, some m.firstName, some m.lastName,
               none, some roles⟩ now 1800)
            (signRefreshToken sigOf secret
              ⟨none, some m.id, some m.email, none, none, none, none⟩ now)
            m.id m.email m.firstName m.lastName roles
      else .apiError 401 INVALID_CREDENTIALS_MSG none

/-- C1: an unknown email and a known email with a wrong password produce
the same login rejection: same status 401, same message, same (absent)
extra data. -/
theorem C1_login_failures_indistinguishable
    (findByEmail : String → Option (Member × RoleFlags))
    (comparePassword : String → String → Bool)
    (sigOf : SigOf) (secret : String) (now : Nat)
    (e1 p1 e2 p2 : String) (m : Member) (flags : RoleFlags) (stored : String)
    (h1 : findByEmail e1 = none)
    (h2 : findByEmail e2 = some (m, flags))
    (h3 : m.password = some stored)
    (h4 : comparePassword p2 stored = false) :
    login findByEmail comparePassword sigOf secret now e1 p1
        = .apiError 401 INVALID_CREDENTIALS_MSG none ∧
    login findByEmail comparePassword sigOf secret now e2 p2
        = .apiError 401 INVALID_CREDENTIALS_MSG none ∧
    login findByEmail comparePassword sigOf secret now e1 p1
        = login findByEmail comparePassword sigOf secret now e2 p2 := by
  have ha : login findByEmail comparePassword sigOf secret now e1 p1
      = .apiError 401 INVALID_CREDENTIALS_MSG none := by
    simp [login, h1]
  have hb : login findByEmail comparePassword sigOf secret now e2 p2
      = .apiError 401 INVALID_CREDENTIALS_MSG none := by
    simp [login, h2, h3, h4]
  exact ⟨ha, hb, ha.trans hb.symm⟩

/-- Witness for C1: a one-member store, an unknown email and the known
email with a wrong password. -/
theorem C1_login_failures_indistinguishable_witness :
    login (fun e => if e = "a@x.com"
            then some (⟨"u1", "Ama", "Mensah", "a@x.com", some "hash1"⟩,
              ⟨false, false, false, false, false, false, false, false, false,
               false, false, false, false, false, false, false, false, false,
               false, false, false⟩)
            else none)
        (fun _ _ => false) (fun s _ i e => s.length + i + e) "sec" 0
        "b@x.com" "pw"
      = .apiError 401 INVALID_CREDENTIALS_MSG none := by
  have h := C1_login_failures_indistinguishable
    (fun e => if e = "a@x.com"
      then some (⟨"u1", "Ama", "Mensah", "a@x.com", some "hash1"⟩,
        ⟨false, false, false, false, false, false, false, false, false,
         false, false, false, false, false, false, false, false, false,
         false, false, false⟩)
      else none)
    (fun _ _ => false) (fun s _ i e => s.length + i + e) "sec" 0
    "b@x.com" "pw" "a@x.com" "wrong"
    ⟨"u1", "Ama", "Mensah", "a@x.com", some "hash1"⟩
    ⟨false, false, false, false, false, false, false, false, false,
     false, false, false, false, false, false, false, false, false,
     false, false, false⟩ "hash1"
    (by decide) (by decide) rfl rfl
  exact h.1

/-- C4: a login against an identity whose stored password is absent is
rejected without invoking the password comparison (the outcome is
independent of the comparison function), and the rejection is
distinguishable from the generic invalid-credentials rejection: it
carries the requiresPasswordSetup indicator and a message advising
account recovery. -/
theorem C4_credential_unset_distinct
    (findByEmail : String → Option (Member × RoleFlags))
    (cmp cmp2 : String → String → Bool)
    (sigOf : SigOf) (secret : String) (now : Nat)
    (email password : String) (m : Member) (flags : RoleFlags)
    (h : findByEmail email = some (m, flags))
    (hp : m.password = none) :
    login findByEmail cmp sigOf secret now email password
        = .apiError 401 PASSWORD_NOT_SET_MSG (some ⟨true⟩) ∧
    login findByEmail cmp sigOf secret now email password
        = login findByEmail cmp2 sigOf secret now email password ∧
    (.apiError 401 PASSWORD_NOT_SET_MSG (some ⟨true⟩) : LoginResponse)
        ≠ .apiError 401 INVALID_CREDENTIALS_MSG none := by
  have ha : login findByEmail cmp sigOf secret now email password
      = .apiError 401 PASSWORD_NOT_SET_MSG (some ⟨true⟩) := by
    simp [login, h, hp]
  have hb : login findByEmail cmp2 sigOf secret now email password
      = .apiError 401 PASSWORD_NOT_SET_MSG (some ⟨true⟩) := by
    simp [login, h, hp]
  exact ⟨ha, ha.trans hb.symm, by decide⟩

/-- Witness for C4 at a one-member store whose member has no password. -/
theorem C4_credential_unset_distinct_witness :
    login (fun _ => some (⟨"u1", "Ama", "Mensah", "a@x.com", none⟩,
        ⟨false, false, false, false, false, false, false, false, false,
         false, false, false, false, false, false, false, false, false,
         false, false, false⟩))
        (fun _ _ => true) (fun s _ i e => s.length + i + e) "sec" 0
        "a@x.com" "pw"
      = .apiError 401 PASSWORD_NOT_SET_MSG (some ⟨true⟩) := by
  have h := C4_credential_unset_distinct
    (fun _ => some (⟨"u1", "Ama", "Mensah", "a@x.com", none⟩,
      ⟨false, false, false, false, false, false, false, false, false,
       false, false, false, false, false, false, false, false, false,
       false, false, false⟩))
    (fun _ _ => true) (fun _ _ => false)
    (fun s _ i e => s.length + i + e) "sec" 0 "a@x.com" "pw"
    ⟨"u1", "Ama", "Mensah", "a@x.com", none⟩
    ⟨false, false, false, false, false, false, false, false, false,
     false, false, false, false, false, false, false, false, false,
     false, false, false⟩ rfl rfl
  exact h.1

/-! ## Rate limiter (src/utils/security.ts) and forgot-password route
(src/routes/forgotPassword.ts) -/

structure RateLimitConfig where
  maxAttempts : Nat
  windowMs : Nat
  blockDurationMs : Nat
  deriving DecidableEq

structure RateLimitResult where
  allowed : Bool
  retryAfter : Option Nat
  deriving DecidableEq

/-- checkRateLimit from security.ts. The active body is the single line
returning allowed for every identifier and configuration; the sliding
window logic below it is commented out in the source. -/
def checkRateLimit (_identifier : String) (_config : RateLimitConfig) :
    RateLimitResult :=
  { allowed := true, retryAfter := none }

def FORGOT_EMAIL_LIMIT : RateLimitConfig :=
  { maxAttempts := 3, windowMs := 3600000, blockDurationMs := 3600000 }

def FORGOT_IP_LIMIT : RateLimitConfig :=
  { maxAttempts := 10, windowMs := 3600000, blockDurationMs := 3600000 }

def FORGOT_GENERIC_MSG : String :=
  "If an account exists with this email, you will receive a password reset link."

structure HttpResponse where
  status : Nat
  message : String
  deriving DecidableEq

/-- Observable side effects of one forgot-password request: whether the
store lookup ran and whether the reset notification dispatch was
attempted. -/
structure ForgotEffects where
  lookupPerformed : Bool
  notificationDispatched : Bool
  deriving DecidableEq

/-- Branching of the forgot-password route after the two checkRateLimit
calls, parameterised over their results: blocked requests return the
generic body without lookup; otherwise the lookup runs, the notification
is dispatched only when the email matched a record (dispatch failures are
swallowed), and the same generic body is returned. -/
def forgotPasswordWith (emailRateLimit ipRateLimit : RateLimitResult)
    (userExists _emailSendOk : Bool) : HttpResponse × ForgotEffects :=
  if !emailRateLimit.allowed then
    ({ status := 200, message := FORGOT_GENERIC_MSG },
     { lookupPerformed := false, notificationDispatched := false })
  else if !ipRateLimit.allowed then
    ({ status := 200, message := FORGOT_GENERIC_MSG },
     { lookupPerformed := false, notificationDispatched := false })
  else if userExists then
    ({ status := 200, message := FORGOT_GENERIC_MSG },
     { lookupPerformed := true, notificationDispatched := true })
  else
    ({ status := 200, message := FORGOT_GENERIC_MSG },
     { lookupPerformed := true, notificationDispatched := false })

/-- The forgot-password route: rate-limit by email then by client IP with
the configured thresholds, then the branching above. -/
def forgotPassword (userExists emailSendOk : Bool)
    (email clientIP : String) : HttpResponse × ForgotEffects :=
  forgotPasswordWith
    (checkRateLimit ("forgot:" ++ email) FORGOT_EMAIL_LIMIT)
    (checkRateLimit ("forgot:ip:" ++ clientIP) FORGOT_IP_LIMIT)
    userExists emailSendOk

/-- C2: every well-formed forgot-password request gets the identical
response: status 200 and the fixed generic message, on every branch of
the route (email rate-limited, IP rate-limited, email found, email not
found, notification success or failure). -/
theorem C2_forgot_response_identical
    (emailRateLimit ipRateLimit : RateLimitResult)
    (userExists emailSendOk : Bool) (email clientIP : String) :
    (forgotPasswordWith emailRateLimit ipRateLimit userExists emailSendOk).1
        = { status := 200, message := FORGOT_GENERIC_MSG } ∧
    (forgotPassword userExists emailSendOk email clientIP).1
        = { status := 200, message := FORGOT_GENERIC_MSG } := by
  constructor
  · unfold forgotPasswordWith
    split
    · rfl
    · split
      · rfl
      · split <;> rfl
  · unfold forgotPassword forgotPasswordWith
    split
    · rfl
    · split
      · rfl
      · split <;> rfl

/-- C3 evaluation: the deployed checkRateLimit allows every request (the
limiter body is disabled), so a fourth forgot-password request for the
same email within the hour, like every request, still performs the
identity lookup and dispatches the reset notification when the email
exists, contrary to the documented 3-per-hour limit. -/
theorem C3_rate_limiter_disabled_eval :
    checkRateLimit "forgot:a@x.com" FORGOT_EMAIL_LIMIT
        = { allowed := true, retryAfter := none } ∧
    (forgotPassword true true "a@x.com" "203.0.113.7").2
        = { lookupPerformed := true, notificationDispatched := true } := by
  exact ⟨rfl, rfl⟩

/-! ## Credential store updates and completion flows
(src/routes/setupPassword.ts, src/handlers/forgotPassword.ts resetPassword,
src/routes/refreshToken.ts, src/routes/resetPassword.ts deleteAccount) -/

/-- User node as touched by the completion and deletion queries
(datetime-valued audit fields are not modelled). -/
structure UserRec where
  id : String
  email : String
  password : Option String
  migration_completed : Bool
  email_verified : Bool
  deriving DecidableEq

/-- Match condition of the setup-completion update: MATCH on id and email
with WHERE password IS NULL. -/
def setupMatches (userId email : String) (u : UserRec) : Bool :=
  decide (u.id = userId ∧ u.email = email ∧ u.password = none)

/-- The setup-completion cypher update: set the password and the
migration marker on every node matching id, email and a null password;
the returned count is the number of records the query returned. -/
def setupPasswordUpdate (db : List UserRec) (userId email hashedPassword : String) :
    List UserRec × Nat :=
  (db.map (fun u => if setupMatches userId email u then
      { u with password := some hashedPassword, migration_completed := true }
    else u),
   (db.filter (setupMatches userId email)).length)

/-- Match condition of the reset-completion update: MATCH on id and email
only, with no condition on the stored password. -/
def resetMatches (userId email : String) (u : UserRec) : Bool :=
  decide (u.id = userId ∧ u.email = email)

/-- The reset-completion cypher update: set the password, the verified
marker and the migration marker on every node matching id and email,
unconditionally on the stored password. -/
def resetPasswordUpdate (db : List UserRec) (userId email hashedPassword : String) :
    List UserRec × Nat :=
  (db.map (fun u => if resetMatches userId email u then
      { u with password := some hashedPassword, email_verified := true, migration_completed := true }
    else u),
   (db.filter (resetMatches userId email)).length)

/-- Outcome of a completion flow together with the tokens it issues. -/
inductive FlowResult where
  | err (statusCode : Nat) (message : String)
  | ok (message : String) (accessToken refreshToken : JwtToken)
  deriving DecidableEq

def FlowResult.isOk : FlowResult → Bool
  | .err _ _ => false
  | .ok _ _ _ => true

/-- The password-setup completion route: password confirmation check,
token verification, action discriminator check, then the conditional
update; zero records returned raises the already-migrated error and the
transaction is rolled back. -/
def setupPasswordFlow (sigOf : SigOf) (secret : String) (now : Nat)
    (hashPassword : String → String) (db : List UserRec)
    (setup_token : JwtToken) (new_password confirm_password : String) :
    FlowResult × List UserRec :=
  if new_password ≠ confirm_password then (.err 400 "Passwords do not match", db)
  else
    match verifyJWT sigOf secret now setup_token with
    | .error _ =>
      (.err 400 "Invalid or expired setup link. Please try logging in again.", db)
    | .ok decoded =>
      if decoded.action ≠ some "password_setup" then
        (.err 400 "Invalid setup token", db)
      else
        if (setupPasswordUpdate db (decoded.userId.getD "") (decoded.email.getD "")
              (hashPassword new_password)).2 = 0 then
          (.err 400 "This account has already been set up. Please login normally.", db)
        else
          (.ok "Setup complete - welcome!"
            (signJWT sigOf secret
              ⟨none, some (decoded.userId.getD ""), some (decoded.email.getD ""),
               none, none, none, none⟩ now 1800)
            (signRefreshToken sigOf secret
              ⟨none, some (decoded.userId.getD ""), some (decoded.email.getD ""),
               none, none, none, none⟩ now),
           (setupPasswordUpdate db (decoded.userId.getD "") (decoded.email.getD "")
              (hashPassword new_password)).1)

/-- The password-reset completion handler: password confirmation check,
token verification, action discriminator check, the unconditional update,
then role derivation and token issuance; the access and refresh tokens
are signed over the same payload. -/
def resetPasswordFlow (sigOf : SigOf) (secret : String) (now : Nat)
    (hashPassword : String → String) (resolveFlags : String → RoleFlags)
    (db : List UserRec)
    (reset_token : JwtToken) (new_password confirm_password : String) :
    FlowResult × List UserRec :=
  if new_password ≠ confirm_password then (.err 400 "Passwords do not match", db)
  else
    match verifyJWT sigOf secret now reset_token with
    | .error _ =>
      (.err 400 "Invalid or expired reset link. Please try logging in again.", db)
    | .ok decoded =>
      if decoded.action ≠ some "password_reset" then
        (.err 400 "Invalid reset token", db)
      else
        if (resetPasswordUpdate db (decoded.userId.getD "") (decoded.email.getD "")
              (hashPassword new_password)).2 = 0 then
          (.err 404 "Invalid reset link. User not found.", db)
        else
          (.ok "Password reset successful - welcome!"
            (signJWT sigOf secret
              ⟨some (decoded.userId.getD ""), some (decoded.userId.getD ""),
               some (decoded.email.getD ""), none, none, none,
               some (deriveRolesFromFlags (resolveFlags (decoded.userId.getD "")))⟩
              now 1800)
            (signRefreshToken sigOf secret
              ⟨some (decoded.userId.getD ""), some (decoded.userId.getD ""),
               some (decoded.email.getD ""), none, none, none,
               some (deriveRolesFromFlags (resolveFlags (decoded.userId.getD "")))⟩ now),
           (resetPasswordUpdate db (decoded.userId.getD "") (decoded.email.getD "")
              (hashPassword new_password)).1)

/-- Outcome of the token-refresh route. The refreshTokenIssued component
models the absent refreshToken key of the success body. -/
inductive RefreshResult where
  | err (statusCode : Nat) (message : String)
  | ok (message : String) (accessToken : JwtToken)
      (refreshTokenIssued : Option JwtToken)
  deriving DecidableEq

/-- The token-refresh route: verify the presented refresh token, re-read
the member and its flags, re-derive roles and issue a fresh access token
only; the response carries no refresh token. -/
def refreshTokenFlow (sigOf : SigOf) (secret : String) (now : Nat)
    (lookupUser : String → Option (Member × RoleFlags))
    (tok : JwtToken) : RefreshResult :=
  match verifyJWT sigOf secret now tok with
  | .error _ => .err 401 "Invalid or expired token"
  | .ok decoded =>
    match lookupUser (decoded.userId.getD "") with
    | none => .err 404 "User not found"
    | some (m, flags) =>
      let roles := deriveRolesFromFlags flags
      .ok "Token refreshed successfully"
        (signJWT sigOf secret
          ⟨none, some m.id, some m.email, some m.firstName, some m.lastName,
           none, some roles⟩ now 1800)
        none

/-- Outcome of the account-deletion route. -/
inductive DeleteResult where
  | err (statusCode : Nat) (message : String)
  | ok (message : String) (accountId : Option String)
  deriving DecidableEq

/-- The account-deletion route: confirmation flag check, token
verification, capture of the email of the first node matching the token
subject, cascading delete of every matching node, commit, then the
deletion-confirmation dispatch only when an email was captured; returns
the deleted-db state and whether the notification was dispatched. -/
def deleteAccountFlow (sigOf : SigOf) (secret : String) (now : Nat)
    (db : List UserRec) (token : JwtToken) (confirmDeletion : Bool) :
    DeleteResult × List UserRec × Bool :=
  if !confirmDeletion then
    (.err 400 "You must confirm account deletion", db, false)
  else
    match verifyJWT sigOf secret now token with
    | .error _ => (.err 401 "Invalid or expired token", db, false)
    | .ok decoded =>
      let uid := decoded.userId.getD ""
      let userEmail := (db.find? (fun u => decide (u.id = uid))).map UserRec.email
      (.ok "Account deleted successfully" decoded.userId,
       db.filter (fun u => decide (¬ u.id = uid)),
       userEmail.isSome)

/-! ## Helper lemmas about conditional map and filter -/

theorem map_if_no_match {α : Type} (f : α → α) (c : α → Bool) :
    ∀ l : List α, (∀ u ∈ l, c u = false) →
      l.map (fun u => if c u then f u else u) = l := by
  intro l
  induction l with
  | nil => intro _; rfl
  | cons a t ih =>
    intro hp
    have h1 : c a = false := hp a (List.mem_cons_self a t)
    simp only [List.map_cons, h1, Bool.false_eq_true, if_false]
    rw [ih (fun v hv => hp v (List.mem_cons_of_mem a hv))]

theorem filter_none_of_all_false {α : Type} (c : α → Bool) :
    ∀ l : List α, (∀ u ∈ l, c u = false) → l.filter c = [] := by
  intro l
  induction l with
  | nil => intro _; rfl
  | cons a t ih =>
    intro hp
    have h1 : c a = false := hp a (List.mem_cons_self a t)
    rw [List.filter_cons, h1]
    simp only [Bool.false_eq_true, if_false]
    exact ih (fun v hv => hp v (List.mem_cons_of_mem a hv))

theorem filter_all_true {α : Type} (c : α → Bool) :
    ∀ l : List α, (∀ u ∈ l, c u = true) → l.filter c = l := by
  intro l
  induction l with
  | nil => intro _; rfl
  | cons a t ih =>
    intro hp
    have h1 : c a = true := hp a (List.mem_cons_self a t)
    rw [List.filter_cons, h1]
    simp only [if_true]
    rw [ih (fun v hv => hp v (List.mem_cons_of_mem a hv))]

theorem find_none_of_all_false {α : Type} (c : α → Bool) :
    ∀ l : List α, (∀ u ∈ l, c u = false) → l.find? c = none := by
  intro l
  induction l with
  | nil => intro _; rfl
  | cons a t ih =>
    intro hp
    have h1 : c a = false := hp a (List.mem_cons_self a t)
    rw [List.find?_cons, h1]
    exact ih (fun v hv => hp v (List.mem_cons_of_mem a hv))

/-! ## Compare-and-swap behaviour of the completion updates (C5) -/

theorem setupPasswordUpdate_all_set (db : List UserRec) (uid em h : String)
    (hp : ∀ u ∈ db, setupMatches uid em u = false) :
    setupPasswordUpdate db uid em h = (db, 0) := by
  unfold setupPasswordUpdate
  rw [map_if_no_match _ _ db hp, filter_none_of_all_false _ db hp]
  rfl

theorem setup_then_setup_zero (db : List UserRec) (uid em h1 h2 : String) :
    (setupPasswordUpdate (setupPasswordUpdate db uid em h1).1 uid em h2).2 = 0 := by
  have hall : ∀ u ∈ (setupPasswordUpdate db uid em h1).1,
      setupMatches uid em u = false := by
    intro u hu
    unfold setupPasswordUpdate at hu
    simp only [List.mem_map] at hu
    obtain ⟨v, hv, rfl⟩ := hu
    cases hc : setupMatches uid em v with
    | true => simp [hc, setupMatches]
    | false => simp [hc]
  show ((setupPasswordUpdate db uid em h1).1.filter (setupMatches uid em)).length = 0
  rw [filter_none_of_all_false _ _ hall]
  rfl

theorem resetPasswordUpdate_matches_nonzero (db : List UserRec)
    (uid em h : String) (u : UserRec) (hu : u ∈ db)
    (hid : u.id = uid) (hem : u.email = em) :
    (resetPasswordUpdate db uid em h).2 ≠ 0 := by
  intro h0
  have hmem : u ∈ db.filter (resetMatches uid em) :=
    List.mem_filter.2 ⟨hu, by simp [resetMatches, hid, hem]⟩
  have hnil : db.filter (resetMatches uid em) = [] :=
    List.eq_nil_of_length_eq_zero h0
  rw [hnil] at hmem
  cases hmem

/-- C5 (amended): only the setup completion performs the compare-and-swap
conditioned on an absent password hash: on a store where every record
matching the subject already has a password it fails with the already-set
error and leaves the store unchanged, and after any completed setup
update a second setup attempt on the same subject matches zero records;
the reset completion, by contrast, updates a matching record
unconditionally, even when its password hash is already set. -/
theorem C5_setup_cas_reset_unconditional
    (sigOf : SigOf) (secret : String) (now : Nat) (hashPw : String → String)
    (db : List UserRec) (uid em h1 h2 : String) (tok : JwtToken)
    (d : JWTPayload) (np : String) (u : UserRec)
    (hp : ∀ v ∈ db, v.id = uid → v.email = em → v.password ≠ none)
    (hok : verifyJWT sigOf secret now tok = .ok d)
    (hact : d.action = some "password_setup")
    (huid : d.userId = some uid) (hem2 : d.email = some em)
    (hu : u ∈ db) (hid : u.id = uid) (hem : u.email = em) :
    setupPasswordUpdate db uid em h1 = (db, 0) ∧
    (∀ db2 : List UserRec,
      (setupPasswordUpdate (setupPasswordUpdate db2 uid em h1).1 uid em h2).2 = 0) ∧
    setupPasswordFlow sigOf secret now hashPw db tok np np
      = (.err 400 "This account has already been set up. Please login normally.", db) ∧
    (resetPasswordUpdate db uid em h1).2 ≠ 0 := by
  have hall : ∀ v ∈ db, setupMatches uid em v = false := by
    intro v hv
    simp only [setupMatches, decide_eq_false_iff_not]
    rintro ⟨ha, hb, hc⟩
    exact hp v hv ha hb hc
  refine ⟨setupPasswordUpdate_all_set db uid em h1 hall,
    fun db2 => setup_then_setup_zero db2 uid em h1 h2, ?_,
    resetPasswordUpdate_matches_nonzero db uid em h1 u hu hid hem⟩
  have hupd := setupPasswordUpdate_all_set db uid em (hashPw np) hall
  simp [setupPasswordFlow, hok, hact, huid, hem2, hupd]

/-! Concrete fixtures used by witnesses and counterexamples. -/

def sigOfTest : SigOf := fun s _ i e => s.length + i + e

def hashTest : String → String := fun s => "bcrypt:" ++ s

def FLAGS_B : RoleFlags :=
  ⟨true, false, false, false, false, false, false, false, false, false,
   false, false, false, false, false, false, false, false, false, false,
   false⟩

def rec0 : UserRec := ⟨"u1", "a@x.com", some "oldhash", true, true⟩

def PAYLOAD_SETUP_TEST : JWTPayload :=
  ⟨none, some "u1", some "a@x.com", none, none, some "password_setup", none⟩

def PAYLOAD_RESET_TEST : JWTPayload :=
  ⟨none, some "u1", some "a@x.com", none, none, some "password_reset", none⟩

def tokSetupTest : JwtToken := signJWT sigOfTest "sec" PAYLOAD_SETUP_TEST 0 86400

def tokResetTest : JwtToken := signJWT sigOfTest "sec" PAYLOAD_RESET_TEST 0 86400

/-- Counterexample for C5 as frozen: the reset completion, run against a
record whose password hash is already set, succeeds (it does not fail
with an already-set or not-found error) and overwrites the stored hash. -/
theorem C5_counterexample_reset_overwrites :
    (resetPasswordUpdate [rec0] "u1" "a@x.com" "newhash").2 = 1 ∧
    (resetPasswordUpdate [rec0] "u1" "a@x.com" "newhash").1
      = [⟨"u1", "a@x.com", some "newhash", true, true⟩] ∧
    ((resetPasswordFlow sigOfTest "sec" 10 hashTest (fun _ => FLAGS_B) [rec0]
        tokResetTest "newpassword1" "newpassword1").1).isOk = true ∧
    (resetPasswordFlow sigOfTest "sec" 10 hashTest (fun _ => FLAGS_B) [rec0]
        tokResetTest "newpassword1" "newpassword1").2
      = [⟨"u1", "a@x.com", some (hashTest "newpassword1"), true, true⟩] := by
  refine ⟨by decide, by decide, by decide, by decide⟩

/-- Witness for C5: the amended theorem applied to a one-record store
whose record already holds a password hash. -/
theorem C5_setup_cas_reset_unconditional_witness :
    setupPasswordUpdate [rec0] "u1" "a@x.com" "h1" = ([rec0], 0) ∧
    (resetPasswordUpdate [rec0] "u1" "a@x.com" "h1").2 ≠ 0 ∧
    setupPasswordFlow sigOfTest "sec" 10 hashTest [rec0] tokSetupTest
        "newpassword1" "newpassword1"
      = (.err 400 "This account has already been set up. Please login normally.",
         [rec0]) := by
  have h := C5_setup_cas_reset_unconditional sigOfTest "sec" 10 hashTest
    [rec0] "u1" "a@x.com" "h1" "h2" tokSetupTest PAYLOAD_SETUP_TEST
    "newpassword1" rec0
    (by decide) rfl rfl rfl rfl (by decide) rfl rfl
  exact ⟨h.1, h.2.2.2, h.2.2.1⟩

/-- C8: after a token verifies, the reset completion rejects any decoded
payload whose action discriminator is not password_reset with the
invalid-reset-token error and an unchanged store, and the setup
completion rejects any payload whose action is not password_setup; hence
a token issued for one action is never accepted by the other completion
operation. -/
theorem C8_action_discriminator_enforced
    (sigOf : SigOf) (secret : String) (now : Nat)
    (hashPw : String → String) (resolveFlags : String → RoleFlags)
    (db : List UserRec) (tok : JwtToken) (d : JWTPayload) (np : String)
    (hok : verifyJWT sigOf secret now tok = .ok d) :
    (d.action ≠ some "password_reset" →
      resetPasswordFlow sigOf secret now hashPw resolveFlags db tok np np
        = (.err 400 "Invalid reset token", db)) ∧
    (d.action ≠ some "password_setup" →
      setupPasswordFlow sigOf secret now hashPw db tok np np
        = (.err 400 "Invalid setup token", db)) ∧
    (d.action = some "password_setup" →
      resetPasswordFlow sigOf secret now hashPw resolveFlags db tok np np
        = (.err 400 "Invalid reset token", db)) ∧
    (d.action = some "password_reset" →
      setupPasswordFlow sigOf secret now hashPw db tok np np
        = (.err 400 "Invalid setup token", db)) := by
  have hreset : d.action ≠ some "password_reset" →
      resetPasswordFlow sigOf secret now hashPw resolveFlags db tok np np
        = (.err 400 "Invalid reset token", db) := by
    intro hne
    simp [resetPasswordFlow, hok, hne]
  have hsetup : d.action ≠ some "password_setup" →
      setupPasswordFlow sigOf secret now hashPw db tok np np
        = (.err 400 "Invalid setup token", db) := by
    intro hne
    simp [setupPasswordFlow, hok, hne]
  refine ⟨hreset, hsetup, fun ha => hreset ?_, fun ha => hsetup ?_⟩
  · rw [ha]
    decide
  · rw [ha]
    decide

/-- Witness for C8: a setup-action token presented to the reset
completion and a reset-action token presented to the setup completion
are both rejected. -/
theorem C8_action_discriminator_enforced_witness :
    resetPasswordFlow sigOfTest "sec" 10 hashTest (fun _ => FLAGS_B) [rec0]
        tokSetupTest "newpassword1" "newpassword1"
      = (.err 400 "Invalid reset token", [rec0]) ∧
    setupPasswordFlow sigOfTest "sec" 10 hashTest [rec0]
        tokResetTest "newpassword1" "newpassword1"
      = (.err 400 "Invalid setup token", [rec0]) := by
  have h1 := C8_action_discriminator_enforced sigOfTest "sec" 10 hashTest
    (fun _ => FLAGS_B) [rec0] tokSetupTest PAYLOAD_SETUP_TEST "newpassword1" rfl
  have h2 := C8_action_discriminator_enforced sigOfTest "sec" 10 hashTest
    (fun _ => FLAGS_B) [rec0] tokResetTest PAYLOAD_RESET_TEST "newpassword1" rfl
  exact ⟨h1.2.2.1 rfl, h2.2.2.2 rfl⟩

/-! ## Refresh-token payload contents across issuance sites (C6) -/

/-- C6 (amended): the login route and the setup completion sign their
refresh tokens over a payload without a roles claim, and the refresh
operation issues no refresh token at all; the reset completion, however,
signs its refresh token over the very same payload as its access token,
roles claim included. -/
theorem C6_refresh_token_payloads_amended :
    (∀ (findByEmail : String → Option (Member × RoleFlags))
       (cmp : String → String → Bool) (sigOf : SigOf) (secret : String)
       (now : Nat) (e p : String) (a r : JwtToken)
       (uid em fn ln : String) (roles : List String),
      login findByEmail cmp sigOf secret now e p = .ok a r uid em fn ln roles →
      ∃ q, r.claims = some q ∧ q.roles = none) ∧
    (∀ (sigOf : SigOf) (secret : String) (now : Nat)
       (hashPw : String → String) (db : List UserRec) (tok : JwtToken)
       (np cp msg : String) (a r : JwtToken) (db2 : List UserRec),
      setupPasswordFlow sigOf secret now hashPw db tok np cp = (.ok msg a r, db2) →
      ∃ q, r.claims = some q ∧ q.roles = none) ∧
    (∀ (sigOf : SigOf) (secret : String) (now : Nat)
       (lookupUser : String → Option (Member × RoleFlags)) (tok : JwtToken)
       (msg : String) (a : JwtToken) (rOpt : Option JwtToken),
      refreshTokenFlow sigOf secret now lookupUser tok = .ok msg a rOpt →
      rOpt = none) ∧
    (∀ (sigOf : SigOf) (secret : String) (now : Nat)
       (hashPw : String → String) (resolveFlags : String → RoleFlags)
       (db : List UserRec) (tok : JwtToken) (np cp msg : String)
       (a r : JwtToken) (db2 : List UserRec),
      resetPasswordFlow sigOf secret now hashPw resolveFlags db tok np cp
          = (.ok msg a r, db2) →
      r.claims = a.claims ∧ ∃ q, r.claims = some q ∧ q.roles ≠ none) := by
  refine ⟨?_, ?_, ?_, ?_⟩
  · intro findByEmail cmp sigOf secret now e p a r uid em fn ln roles h
    unfold login at h
    split at h
    · cases h
    · split at h
      · cases h
      · split at h
        · rw [LoginResponse.ok.injEq] at h
          obtain ⟨-, hr, -, -, -, -, -⟩ := h
          exact ⟨_, by rw [← hr]; rfl, rfl⟩
        · cases h
  · intro sigOf secret now hashPw db tok np cp msg a r db2 h
    unfold setupPasswordFlow at h
    split at h
    · cases h
    · split at h
      · cases h
      · split at h
        · cases h
        · split at h
          · cases h
          · rw [Prod.mk.injEq, FlowResult.ok.injEq] at h
            obtain ⟨⟨-, -, hr⟩, -⟩ := h
            exact ⟨_, by rw [← hr]; rfl, rfl⟩
  · intro sigOf secret now lookupUser tok msg a rOpt h
    unfold refreshTokenFlow at h
    split at h
    · cases h
    · split at h
      · cases h
      · rw [RefreshResult.ok.injEq] at h
        obtain ⟨-, -, hr⟩ := h
        exact hr.symm
  · intro sigOf secret now hashPw resolveFlags db tok np cp msg a r db2 h
    unfold resetPasswordFlow at h
    split at h
    · cases h
    · split at h
      · cases h
      · split at h
        · cases h
        · split at h
          · cases h
          · rw [Prod.mk.injEq, FlowResult.ok.injEq] at h
            obtain ⟨⟨-, ha, hr⟩, -⟩ := h
            refine ⟨by rw [← ha, ← hr]; rfl, _, by rw [← hr]; rfl, by simp⟩

def RESET_OK_PAYLOAD : JWTPayload :=
  ⟨some "u1", some "u1", some "a@x.com", none, none, none, some ["leaderBacenta"]⟩

def TOK_ACCESS_TEST : JwtToken := signJWT sigOfTest "sec" RESET_OK_PAYLOAD 10 1800

def TOK_REFRESH_TEST : JwtToken := signRefreshToken sigOfTest "sec" RESET_OK_PAYLOAD 10

def DB_AFTER_RESET : List UserRec :=
  [⟨"u1", "a@x.com", some (hashTest "newpassword1"), true, true⟩]

/-- Counterexample for C6 as frozen: a concrete reset completion issues a
refresh token whose payload carries the derived role name. -/
theorem C6_counterexample_reset_refresh_has_roles :
    (resetPasswordFlow sigOfTest "sec" 10 hashTest (fun _ => FLAGS_B) [rec0]
        tokResetTest "newpassword1" "newpassword1").1
      = .ok "Password reset successful - welcome!" TOK_ACCESS_TEST TOK_REFRESH_TEST ∧
    TOK_REFRESH_TEST.claims = some RESET_OK_PAYLOAD ∧
    RESET_OK_PAYLOAD.roles = some ["leaderBacenta"] := by
  exact ⟨by decide, rfl, rfl⟩

/-- Witness for C6: the amended theorem applied to the concrete reset
completion run. -/
theorem C6_refresh_token_payloads_amended_witness :
    resetPasswordFlow sigOfTest "sec" 10 hashTest (fun _ => FLAGS_B) [rec0]
        tokResetTest "newpassword1" "newpassword1"
      = (.ok "Password reset successful - welcome!" TOK_ACCESS_TEST TOK_REFRESH_TEST,
         DB_AFTER_RESET) ∧
    (TOK_REFRESH_TEST.claims = TOK_ACCESS_TEST.claims ∧
      ∃ q, TOK_REFRESH_TEST.claims = some q ∧ q.roles ≠ none) := by
  have hpre : resetPasswordFlow sigOfTest "sec" 10 hashTest (fun _ => FLAGS_B)
      [rec0] tokResetTest "newpassword1" "newpassword1"
      = (.ok "Password reset successful - welcome!" TOK_ACCESS_TEST TOK_REFRESH_TEST,
         DB_AFTER_RESET) := by decide
  exact ⟨hpre, (C6_refresh_token_payloads_amended).2.2.2 sigOfTest "sec" 10
    hashTest (fun _ => FLAGS_B) [rec0] tokResetTest "newpassword1" "newpassword1"
    "Password reset successful - welcome!" TOK_ACCESS_TEST TOK_REFRESH_TEST
    DB_AFTER_RESET hpre⟩

/-! ## Account deletion of an unknown subject (C10) -/

/-- C10: an account-deletion request with a valid token and the
affirmative confirmation whose subject matches no stored record still
returns the success message, deletes nothing, and dispatches no
deletion-confirmation notification. -/
theorem C10_delete_unknown_subject_succeeds
    (sigOf : SigOf) (secret : String) (now : Nat) (db : List UserRec)
    (tok : JwtToken) (d : JWTPayload)
    (hok : verifyJWT sigOf secret now tok = .ok d)
    (hnone : ∀ u ∈ db, ¬ u.id = d.userId.getD "") :
    deleteAccountFlow sigOf secret now db tok true
      = (.ok "Account deleted successfully" d.userId, db, false) := by
  have hfind : db.find? (fun u => decide (u.id = d.userId.getD "")) = none :=
    find_none_of_all_false _ db (fun u hu => by simp [hnone u hu])
  have hfilt : db.filter (fun u => decide (¬ u.id = d.userId.getD "")) = db :=
    filter_all_true _ db (fun u hu => by simp [hnone u hu])
  simp [deleteAccountFlow, hok, hfind, hfilt]
  exact hnone

def rec2 : UserRec := ⟨"u2", "b@x.com", some "h", true, true⟩

def PAYLOAD_DELETE_TEST : JWTPayload :=
  ⟨none, some "ghost", none, none, none, none, none⟩

def tokDeleteTest : JwtToken := signJWT sigOfTest "sec" PAYLOAD_DELETE_TEST 0 1800

/-- Witness for C10: deleting with a token whose subject id matches no
record of a one-record store. -/
theorem C10_delete_unknown_subject_succeeds_witness :
    deleteAccountFlow sigOfTest "sec" 10 [rec2] tokDeleteTest true
      = (.ok "Account deleted successfully" (some "ghost"), [rec2], false) :=
  C10_delete_unknown_subject_succeeds sigOfTest "sec" 10 [rec2] tokDeleteTest
    PAYLOAD_DELETE_TEST rfl (by decide)

end FLAuth
